import Mathlib

/-!
Shallow embedding of `crates/bevy_diagnostic/src/system_information_diagnostics_plugin.rs`.

The file under verification is a thin polling wrapper: `setup_system` registers two
diagnostics (CPU usage and memory usage) in the `Diagnostics` registry, and
`diagnostic_system` samples the `sysinfo` library every tick and pushes one
measurement into each of the two series.  A second `internal` module (compiled on
non-allow-listed configurations) replaces both systems by no-ops.

Modelling choices:
* Machine floating point (`f32`/`f64`) is embedded as exact rational arithmetic `ℚ`.
  A floating-point division whose divisor is zero produces no finite real value
  (IEEE NaN or ±infinity); it is embedded as `fdiv`, which returns `Option ℚ` with
  `none` for a zero divisor.  Measurement values stored in a diagnostic's history are
  therefore `Option ℚ` (`none` standing for a pushed non-finite `f64`).
* The `sysinfo` environment (per-core usage readings, total and used memory in
  bytes) is a parameter `SysEnv`; `System::new_all`, `refresh_cpu` and
  `refresh_memory` read from it.  A `System` value additionally carries an abstract
  `handle` tag so that distinct allocations of `System::new_all` are
  distinguishable; `diagnostic_system` threads a `nextHandle` counter modelling the
  allocator.
* The `Diagnostic`/`Diagnostics` registry lives in this repository (bevy_diagnostic's
  `diagnostic.rs`) but outside the sources provided here, so it is modelled from the
  spec: a diagnostic is a named, identified measurement series; a measurement is one
  numeric sample appended to the series; the registry keeps the series retrievable by
  identifier.  `Diagnostic::new`'s third argument is the series' retained-history
  bound (`max_history_length` in bevy_diagnostic); the eviction mechanics themselves
  stay with the registry and are not modelled.
-/

/-- Environment read by the sysinfo library: the usage reading (0.0–100.0) of each
logical core, and total and used memory in bytes. -/
structure SysEnv where
  cpuUsages : List ℚ
  totalMemory : ℕ
  usedMemory : ℕ
deriving DecidableEq

/-- Embeds `sysinfo::System`: the cached readings, plus an abstract `handle` tag
identifying the allocation (two calls to `System::new_all` yield distinct handles). -/
structure System where
  cpus : List ℚ
  totalMemory : ℕ
  usedMemory : ℕ
  handle : ℕ
deriving DecidableEq

/-- `System::new_all()` reads the whole environment; `h` is the fresh allocation tag. -/
def System.new_all (env : SysEnv) (h : ℕ) : System :=
  { cpus := env.cpuUsages, totalMemory := env.totalMemory,
    usedMemory := env.usedMemory, handle := h }

/-- `sys.refresh_cpu()`: re-reads the per-core usages from the environment. -/
def System.refresh_cpu (s : System) (env : SysEnv) : System :=
  { s with cpus := env.cpuUsages }

/-- `sys.refresh_memory()`: re-reads total and used memory from the environment. -/
def System.refresh_memory (s : System) (env : SysEnv) : System :=
  { s with totalMemory := env.totalMemory, usedMemory := env.usedMemory }

/-- Modelled from the spec: a Diagnostic (bevy_diagnostic's `diagnostic.rs`, not under
the provided sources) is a named, identified measurement series with a retained-history
bound; `maxHistoryLength` is the third argument of `Diagnostic::new`
(`max_history_length`), `suffix` the unit suffix, `history` the series of samples. -/
structure Diagnostic where
  id : ℕ
  name : String
  maxHistoryLength : ℕ
  suffix : String
  history : List (Option ℚ)
deriving DecidableEq

/-- `Diagnostic::new(id, name, max_history_length)`: empty suffix, empty history. -/
def Diagnostic.new (id : ℕ) (name : String) (maxHistoryLength : ℕ) : Diagnostic :=
  { id := id, name := name, maxHistoryLength := maxHistoryLength,
    suffix := "", history := [] }

/-- `diagnostic.with_suffix(suffix)`. -/
def Diagnostic.with_suffix (d : Diagnostic) (suffix : String) : Diagnostic :=
  { d with suffix := suffix }

/-- Modelled from the spec: the Diagnostics registry is the collection of registered
measurement series, retrievable by identifier. -/
abbrev Diagnostics : Type := List Diagnostic

/-- Modelled from the spec: registering a diagnostic adds it to the registry. -/
def Diagnostics.add (ds : Diagnostics) (d : Diagnostic) : Diagnostics :=
  List.append ds [d]

/-- Modelled from the spec: `add_measurement(id, value)` appends one sample to the
series identified by `id` and touches no other series (a missing identifier is a
no-op in the registry). -/
def Diagnostics.add_measurement (ds : Diagnostics) (id : ℕ) (v : Option ℚ) :
    Diagnostics :=
  List.map (fun d => if d.id = id then { d with history := d.history ++ [v] } else d) ds

/-- Looks a registered diagnostic up by identifier (first match). -/
def getDiag : Diagnostics → ℕ → Option Diagnostic
  | [], _ => none
  | d :: ds, id => if d.id = id then some d else getDiag ds id

/-- `DiagnosticId::from_u128`: the identifier value, a `u128`. -/
def DiagnosticId.from_u128 (v : ℕ) : ℕ := v % 2 ^ 128

/-- `SystemInformationDiagnosticsPlugin::CPU_USAGE`. -/
def SystemInformationDiagnosticsPlugin.CPU_USAGE : ℕ :=
  DiagnosticId.from_u128 78494871623549551581510633532637320956

/-- `SystemInformationDiagnosticsPlugin::MEM_USAGE`. -/
def SystemInformationDiagnosticsPlugin.MEM_USAGE : ℕ :=
  DiagnosticId.from_u128 42846254859293759601295317811892519825

/-- `const BYTES_TO_GIB: f64 = 1.0 / 1024.0 / 1024.0 / 1024.0;` -/
def BYTES_TO_GIB : ℚ := 1 / 1024 / 1024 / 1024

/-- Floating-point division in exact arithmetic: `none` when the divisor is zero
(the IEEE result is then NaN or ±infinity, not a finite value). -/
def fdiv (a b : ℚ) : Option ℚ := if b = 0 then none else some (a / b)

/-- The `current_cpu_usage` block of `diagnostic_system`: the per-core usages are
summed and the sum is divided by the core count (`usage / cpus.len() as f32`). -/
def currentCpuUsage (cpus : List ℚ) : Option ℚ :=
  fdiv cpus.sum (cpus.length : ℚ)

/-- The memory block of `diagnostic_system`: both `total_memory()` and
`used_memory()` (bytes) are divided by `BYTES_TO_GIB`, then
`current_used_mem = used_mem / total_mem * 100.0`. -/
def currentUsedMem (used total : ℕ) : Option ℚ :=
  (fdiv ((used : ℚ) / BYTES_TO_GIB) ((total : ℚ) / BYTES_TO_GIB)).map (fun q => q * 100)

/-- `setup_system`: registers the CPU-usage diagnostic (id `CPU_USAGE`, name
`"cpu_usage"`, history bound 20, suffix `"%"`) then the memory-usage diagnostic
(id `MEM_USAGE`, name `"mem_usage"`, history bound 20, suffix `"%"`). -/
def setup_system (diagnostics : Diagnostics) : Diagnostics :=
  (diagnostics.add
      ((Diagnostic.new SystemInformationDiagnosticsPlugin.CPU_USAGE "cpu_usage" 20).with_suffix
        "%")).add
    ((Diagnostic.new SystemInformationDiagnosticsPlugin.MEM_USAGE "mem_usage" 20).with_suffix
      "%")

/-- Result of one invocation of `diagnostic_system`: the updated registry, the
updated `Local<Option<System>>` cache, and the allocator counter. -/
structure DiagnosticSystemResult where
  diagnostics : Diagnostics
  sysinfo : Option System
  nextHandle : ℕ

/-- `diagnostic_system`: fills the local cache with `System::new_all()` if it is
`None`, refreshes CPU and memory readings, computes the two gauge values and pushes
one measurement into each of the two series. -/
def diagnostic_system (env : SysEnv) (diagnostics : Diagnostics)
    (sysinfo : Option System) (nextHandle : ℕ) : DiagnosticSystemResult :=
  let filled : Option System × ℕ :=
    if sysinfo.isNone then (some (System.new_all env nextHandle), nextHandle + 1)
    else (sysinfo, nextHandle)
  match filled.1 with
  | none => { diagnostics := diagnostics, sysinfo := none, nextHandle := filled.2 }
  | some sys =>
    let sys := (sys.refresh_cpu env).refresh_memory env
    let current_cpu_usage := currentCpuUsage sys.cpus
    let current_used_mem := currentUsedMem sys.usedMemory sys.totalMemory
    { diagnostics :=
        (diagnostics.add_measurement SystemInformationDiagnosticsPlugin.CPU_USAGE
            current_cpu_usage).add_measurement
          SystemInformationDiagnosticsPlugin.MEM_USAGE current_used_mem,
      sysinfo := some sys, nextHandle := filled.2 }

/-- The `Local<Option<System>>` cache starts at the `Default` of `Option`: `None`. -/
def initialSysinfo : Option System := none

/-- The fallback `internal` module's `setup_system` (non-allow-listed configuration):
it only emits a warning and registers nothing; the registry is returned unchanged. -/
def fallbackInternal.setup_system (diagnostics : Diagnostics) : Diagnostics × String :=
  (diagnostics, "This platform and/or configuration is not supported!")

/-- The fallback `internal` module's `diagnostic_system`: a no-op on all state. -/
def fallbackInternal.diagnostic_system (diagnostics : Diagnostics)
    (sysinfo : Option System) : Diagnostics × Option System :=
  (diagnostics, sysinfo)

/-- Spec-side definition, written from the spec's words for the CPU series:
the arithmetic mean of the per-core usage readings. -/
def arithmeticMean (xs : List ℚ) : ℚ := xs.sum / (xs.length : ℚ)

/-- A pushed sample is a finite value lying in the range 0 to 100. -/
def inRange (v : Option ℚ) : Prop := ∃ q, v = some q ∧ 0 ≤ q ∧ q ≤ 100

/-! Helper lemmas (shared by several claim theorems). -/

/-- The two diagnostic identifiers are distinct constants. -/
theorem cpu_ne_mem :
    SystemInformationDiagnosticsPlugin.CPU_USAGE ≠
      SystemInformationDiagnosticsPlugin.MEM_USAGE := by
  decide

/-- Unfolding `diagnostic_system`: in both cache states the cache ends up filled, the
readings are refreshed from the environment, and the two measurements are pushed. -/
theorem diagnostic_system_def (env : SysEnv) (ds : Diagnostics) (c : Option System)
    (n : ℕ) :
    diagnostic_system env ds c n =
      { diagnostics :=
          (ds.add_measurement SystemInformationDiagnosticsPlugin.CPU_USAGE
              (currentCpuUsage env.cpuUsages)).add_measurement
            SystemInformationDiagnosticsPlugin.MEM_USAGE
            (currentUsedMem env.usedMemory env.totalMemory),
        sysinfo := some (((c.getD (System.new_all env n)).refresh_cpu env).refresh_memory env),
        nextHandle := if c.isNone then n + 1 else n } := by
  cases c <;> rfl

/-- `add_measurement` on the targeted series appends exactly the one sample. -/
theorem getDiag_add_measurement_self {ds : Diagnostics} {id : ℕ} {d : Diagnostic}
    (hd : getDiag ds id = some d) (v : Option ℚ) :
    getDiag (ds.add_measurement id v) id =
      some { d with history := d.history ++ [v] } := by
  induction ds with
  | nil => simp [getDiag] at hd
  | cons a ds ih =>
    by_cases ha : a.id = id
    · rw [getDiag, if_pos ha] at hd
      cases hd
      simp [Diagnostics.add_measurement, getDiag, ha]
    · rw [getDiag, if_neg ha] at hd
      simpa [Diagnostics.add_measurement, getDiag, ha] using ih hd

/-- `add_measurement` leaves every series with a different identifier unchanged. -/
theorem getDiag_add_measurement_ne {tid id : ℕ} (hne : id ≠ tid)
    (ds : Diagnostics) (v : Option ℚ) :
    getDiag (ds.add_measurement tid v) id = getDiag ds id := by
  induction ds with
  | nil => rfl
  | cons a ds ih =>
    by_cases ha : a.id = id
    · have hat : ¬ a.id = tid := by rw [ha]; exact hne
      simp [Diagnostics.add_measurement, getDiag, ha, hat, hne, Ne.symm hne]
    · by_cases hat : a.id = tid
      · simpa [Diagnostics.add_measurement, getDiag, ha, hat, hne, Ne.symm hne] using ih
      · simpa [Diagnostics.add_measurement, getDiag, ha, hat, hne, Ne.symm hne] using ih

/-- The registry component of a `diagnostic_system` tick: both measurements pushed. -/
theorem diagnostic_system_diagnostics (env : SysEnv) (ds : Diagnostics)
    (c : Option System) (n : ℕ) :
    (diagnostic_system env ds c n).diagnostics =
      (ds.add_measurement SystemInformationDiagnosticsPlugin.CPU_USAGE
          (currentCpuUsage env.cpuUsages)).add_measurement
        SystemInformationDiagnosticsPlugin.MEM_USAGE
        (currentUsedMem env.usedMemory env.totalMemory) := by
  cases c <;> rfl

/-- Effect of one `diagnostic_system` tick on the CPU-usage series. -/
theorem diagnostic_system_getDiag_cpu {ds : Diagnostics} {d : Diagnostic}
    (hd : getDiag ds SystemInformationDiagnosticsPlugin.CPU_USAGE = some d)
    (env : SysEnv) (c : Option System) (n : ℕ) :
    getDiag (diagnostic_system env ds c n).diagnostics
        SystemInformationDiagnosticsPlugin.CPU_USAGE =
      some { d with history := d.history ++ [currentCpuUsage env.cpuUsages] } := by
  rw [diagnostic_system_diagnostics]
  rw [getDiag_add_measurement_ne cpu_ne_mem]
  exact getDiag_add_measurement_self hd _

/-- Effect of one `diagnostic_system` tick on the memory-usage series. -/
theorem diagnostic_system_getDiag_mem {ds : Diagnostics} {d : Diagnostic}
    (hd : getDiag ds SystemInformationDiagnosticsPlugin.MEM_USAGE = some d)
    (env : SysEnv) (c : Option System) (n : ℕ) :
    getDiag (diagnostic_system env ds c n).diagnostics
        SystemInformationDiagnosticsPlugin.MEM_USAGE =
      some { d with history :=
        d.history ++ [currentUsedMem env.usedMemory env.totalMemory] } := by
  rw [diagnostic_system_diagnostics]
  exact getDiag_add_measurement_self
    (by rw [getDiag_add_measurement_ne (Ne.symm cpu_ne_mem)]; exact hd) _

/-- With a nonzero total, the two `BYTES_TO_GIB` scalings cancel in the quotient. -/
theorem currentUsedMem_eq {used total : ℕ} (h : total ≠ 0) :
    currentUsedMem used total = some ((used : ℚ) / (total : ℚ) * 100) := by
  have hB : BYTES_TO_GIB ≠ 0 := by norm_num [BYTES_TO_GIB]
  have ht : (total : ℚ) ≠ 0 := Nat.cast_ne_zero.mpr h
  have htB : (total : ℚ) / BYTES_TO_GIB ≠ 0 := div_ne_zero ht hB
  simp only [currentUsedMem, fdiv, if_neg htB, Option.map_some']
  congr 1
  field_simp

/-- With at least one core, the computed CPU gauge is the arithmetic mean. -/
theorem currentCpuUsage_eq {cpus : List ℚ} (h : 0 < cpus.length) :
    currentCpuUsage cpus = some (arithmeticMean cpus) := by
  have : (cpus.length : ℚ) ≠ 0 := Nat.cast_ne_zero.mpr h.ne'
  simp [currentCpuUsage, fdiv, this, arithmeticMean]

/-- The mean of readings each lying in 0–100 lies in 0–100 (nonempty list). -/
theorem cpu_mean_range {cpus : List ℚ} (hlen : 0 < cpus.length)
    (hrange : ∀ x ∈ cpus, 0 ≤ x ∧ x ≤ 100) :
    0 ≤ arithmeticMean cpus ∧ arithmeticMean cpus ≤ 100 := by
  have hl : (0 : ℚ) < (cpus.length : ℚ) := by exact_mod_cast hlen
  constructor
  · exact div_nonneg (List.sum_nonneg fun x hx => (hrange x hx).1) hl.le
  · rw [arithmeticMean, div_le_iff₀ hl]
    calc cpus.sum ≤ cpus.length • (100 : ℚ) :=
          List.sum_le_card_nsmul cpus 100 fun x hx => (hrange x hx).2
    _ = 100 * (cpus.length : ℚ) := by rw [nsmul_eq_mul]; ring

/-! Claim theorems. -/

/-- Claim C1: for every invocation of `diagnostic_system` in a supported configuration
with nonzero total memory, the value pushed for the memory-utilization series equals
used bytes divided by total bytes times 100 (in exact arithmetic): the intermediate
scaling of used and total memory by the same nonzero constant `1 / BYTES_TO_GIB`
cancels in the quotient and does not change the published percentage. -/
theorem mem_usage_pushed_eq_used_div_total (env : SysEnv) (ds : Diagnostics)
    (c : Option System) (n : ℕ) (d : Diagnostic)
    (htotal : env.totalMemory ≠ 0)
    (hd : getDiag ds SystemInformationDiagnosticsPlugin.MEM_USAGE = some d) :
    getDiag (diagnostic_system env ds c n).diagnostics
        SystemInformationDiagnosticsPlugin.MEM_USAGE =
      some { d with history := d.history ++
        [some ((env.usedMemory : ℚ) / (env.totalMemory : ℚ) * 100)] } := by
  rw [diagnostic_system_getDiag_mem hd, currentUsedMem_eq htotal]

/-- Witness for C1: 1 byte used of 4 total publishes 1 / 4 × 100 = 25 %. -/
theorem mem_usage_pushed_eq_used_div_total_witness :
    getDiag (diagnostic_system ⟨[30, 70], 4, 1⟩ (setup_system []) none 0).diagnostics
        SystemInformationDiagnosticsPlugin.MEM_USAGE =
      some { id := SystemInformationDiagnosticsPlugin.MEM_USAGE, name := "mem_usage",
             maxHistoryLength := 20, suffix := "%",
             history := [some (25 : ℚ)] } := by
  have h := mem_usage_pushed_eq_used_div_total ⟨[30, 70], 4, 1⟩ (setup_system []) none 0
    (Diagnostic.mk SystemInformationDiagnosticsPlugin.MEM_USAGE "mem_usage" 20 "%" [])
    (by decide) (by decide)
  rw [h]
  norm_num

/-- Claim C2: for every invocation of `diagnostic_system` in a supported
configuration (here: with at least one logical core, as on every supported target),
the value pushed for the CPU-utilization series is the arithmetic mean of the
per-core usage readings: their sum divided by the number of logical cores. -/
theorem cpu_usage_pushed_eq_arithmetic_mean (env : SysEnv) (ds : Diagnostics)
    (c : Option System) (n : ℕ) (d : Diagnostic)
    (hlen : 0 < env.cpuUsages.length)
    (hd : getDiag ds SystemInformationDiagnosticsPlugin.CPU_USAGE = some d) :
    getDiag (diagnostic_system env ds c n).diagnostics
        SystemInformationDiagnosticsPlugin.CPU_USAGE =
      some { d with history := d.history ++ [some (arithmeticMean env.cpuUsages)] } := by
  rw [diagnostic_system_getDiag_cpu hd, currentCpuUsage_eq hlen]

/-- Witness for C2: readings 30 % and 70 % on two cores publish their mean, 50 %. -/
theorem cpu_usage_pushed_eq_arithmetic_mean_witness :
    getDiag (diagnostic_system ⟨[30, 70], 4, 1⟩ (setup_system []) none 0).diagnostics
        SystemInformationDiagnosticsPlugin.CPU_USAGE =
      some { id := SystemInformationDiagnosticsPlugin.CPU_USAGE, name := "cpu_usage",
             maxHistoryLength := 20, suffix := "%",
             history := [some (50 : ℚ)] } := by
  have h := cpu_usage_pushed_eq_arithmetic_mean ⟨[30, 70], 4, 1⟩ (setup_system []) none 0
    (Diagnostic.mk SystemInformationDiagnosticsPlugin.CPU_USAGE "cpu_usage" 20 "%" [])
    (by decide) (by decide)
  rw [h]
  norm_num [arithmeticMean]

/-- Counterexample to C3 as stated: with zero logical cores (an input the claim
explicitly quantifies over, and whose empty reading list vacuously satisfies the
0–100 range condition), the code computes `0.0 / 0` — IEEE NaN, embedded as `none` —
so the sample pushed into the CPU-utilization series is not a value lying in the
range 0 to 100. -/
theorem cpu_usage_range_zero_cores_counterexample :
    (∀ x ∈ ([] : List ℚ), 0 ≤ x ∧ x ≤ 100) ∧
    (getDiag (diagnostic_system ⟨[], 1, 1⟩ (setup_system []) none 0).diagnostics
        SystemInformationDiagnosticsPlugin.CPU_USAGE).map Diagnostic.history =
      some [currentCpuUsage []] ∧
    ¬ inRange (currentCpuUsage []) := by
  refine ⟨by simp, by decide, ?_⟩
  rintro ⟨q, hq, -⟩
  simp [currentCpuUsage, fdiv] at hq

/-- Claim C3 (amended): for every invocation of `diagnostic_system` in a supported
configuration with at least one logical core, if every per-core usage reading lies
in the range 0.0 to 100.0 then the CPU-utilization value pushed into the registry
lies in the range 0 to 100.  (As stated the claim also quantified over zero logical
cores, where the code divides 0.0 by 0 and pushes NaN instead of a value in range;
the amendment excludes only that case.) -/
theorem cpu_usage_pushed_in_range_of_pos_cores (env : SysEnv) (ds : Diagnostics)
    (c : Option System) (n : ℕ) (d : Diagnostic)
    (hlen : 0 < env.cpuUsages.length)
    (hrange : ∀ x ∈ env.cpuUsages, 0 ≤ x ∧ x ≤ 100)
    (hd : getDiag ds SystemInformationDiagnosticsPlugin.CPU_USAGE = some d) :
    getDiag (diagnostic_system env ds c n).diagnostics
        SystemInformationDiagnosticsPlugin.CPU_USAGE =
      some { d with history := d.history ++ [currentCpuUsage env.cpuUsages] } ∧
    inRange (currentCpuUsage env.cpuUsages) := by
  refine ⟨diagnostic_system_getDiag_cpu hd env c n, ?_⟩
  obtain ⟨h0, h100⟩ := cpu_mean_range hlen hrange
  exact ⟨arithmeticMean env.cpuUsages, currentCpuUsage_eq hlen, h0, h100⟩

/-- Witness for the amended C3: readings 30 % and 70 % on two cores. -/
theorem cpu_usage_pushed_in_range_of_pos_cores_witness :
    getDiag (diagnostic_system ⟨[30, 70], 4, 1⟩ (setup_system []) none 0).diagnostics
        SystemInformationDiagnosticsPlugin.CPU_USAGE =
      some { id := SystemInformationDiagnosticsPlugin.CPU_USAGE, name := "cpu_usage",
             maxHistoryLength := 20, suffix := "%",
             history := [currentCpuUsage [30, 70]] } ∧
    inRange (currentCpuUsage [30, 70]) :=
  cpu_usage_pushed_in_range_of_pos_cores ⟨[30, 70], 4, 1⟩ (setup_system []) none 0
    (Diagnostic.mk SystemInformationDiagnosticsPlugin.CPU_USAGE "cpu_usage" 20 "%" [])
    (by decide) (by decide) (by decide)

/-- Claim C4: a single invocation of `setup_system` in a supported configuration
registers exactly two diagnostics and does nothing else: one with the fixed
identifier `CPU_USAGE`, display name `"cpu_usage"` and unit suffix `"%"`, and one
with the fixed identifier `MEM_USAGE`, display name `"mem_usage"` and unit suffix
`"%"`; the two identifiers are distinct constants. -/
theorem setup_system_registers_exactly_two (ds : Diagnostics) :
    setup_system ds =
        ds ++
          [{ id := SystemInformationDiagnosticsPlugin.CPU_USAGE, name := "cpu_usage",
             maxHistoryLength := 20, suffix := "%", history := [] },
           { id := SystemInformationDiagnosticsPlugin.MEM_USAGE, name := "mem_usage",
             maxHistoryLength := 20, suffix := "%", history := [] }] ∧
      SystemInformationDiagnosticsPlugin.CPU_USAGE ≠
        SystemInformationDiagnosticsPlugin.MEM_USAGE := by
  refine ⟨?_, cpu_ne_mem⟩
  simp [setup_system, Diagnostics.add, Diagnostic.new, Diagnostic.with_suffix]

/-- Claim C5: every invocation of `diagnostic_system` in a supported configuration
appends exactly one measurement to the CPU-utilization series and exactly one to the
memory-utilization series: one sample per series per tick, never zero and never more
than one. -/
theorem diagnostic_system_appends_one_per_series (env : SysEnv) (ds : Diagnostics)
    (c : Option System) (n : ℕ) (dc dm : Diagnostic)
    (hc : getDiag ds SystemInformationDiagnosticsPlugin.CPU_USAGE = some dc)
    (hm : getDiag ds SystemInformationDiagnosticsPlugin.MEM_USAGE = some dm) :
    (getDiag (diagnostic_system env ds c n).diagnostics
          SystemInformationDiagnosticsPlugin.CPU_USAGE =
        some { dc with history := dc.history ++ [currentCpuUsage env.cpuUsages] } ∧
      (dc.history ++ [currentCpuUsage env.cpuUsages]).length = dc.history.length + 1) ∧
    (getDiag (diagnostic_system env ds c n).diagnostics
          SystemInformationDiagnosticsPlugin.MEM_USAGE =
        some { dm with history :=
          dm.history ++ [currentUsedMem env.usedMemory env.totalMemory] } ∧
      (dm.history ++ [currentUsedMem env.usedMemory env.totalMemory]).length =
        dm.history.length + 1) := by
  refine ⟨⟨diagnostic_system_getDiag_cpu hc env c n, ?_⟩,
    ⟨diagnostic_system_getDiag_mem hm env c n, ?_⟩⟩ <;> simp

/-- Witness for C5: one tick on the freshly set-up registry extends each of the two
histories from length 0 to length 1. -/
theorem diagnostic_system_appends_one_per_series_witness :
    (getDiag (diagnostic_system ⟨[30, 70], 4, 1⟩ (setup_system []) none 0).diagnostics
          SystemInformationDiagnosticsPlugin.CPU_USAGE =
        some { id := SystemInformationDiagnosticsPlugin.CPU_USAGE, name := "cpu_usage",
               maxHistoryLength := 20, suffix := "%",
               history := [] ++ [currentCpuUsage [30, 70]] } ∧
      ([] ++ [currentCpuUsage [30, 70]] : List (Option ℚ)).length = 0 + 1) ∧
    (getDiag (diagnostic_system ⟨[30, 70], 4, 1⟩ (setup_system []) none 0).diagnostics
          SystemInformationDiagnosticsPlugin.MEM_USAGE =
        some { id := SystemInformationDiagnosticsPlugin.MEM_USAGE, name := "mem_usage",
               maxHistoryLength := 20, suffix := "%",
               history := [] ++ [currentUsedMem 1 4] } ∧
      ([] ++ [currentUsedMem 1 4] : List (Option ℚ)).length = 0 + 1) :=
  diagnostic_system_appends_one_per_series ⟨[30, 70], 4, 1⟩ (setup_system []) none 0
    (Diagnostic.mk SystemInformationDiagnosticsPlugin.CPU_USAGE "cpu_usage" 20 "%" [])
    (Diagnostic.mk SystemInformationDiagnosticsPlugin.MEM_USAGE "mem_usage" 20 "%" [])
    (by decide) (by decide)

/-- Counterexample to C6 as stated: the history depth of the two registered series is
determined by this code, not only by the external registry — `setup_system` passes
the literal 20 as `Diagnostic::new`'s retained-history bound (`max_history_length`)
for both series, as the freshly set-up registry shows. -/
theorem setup_system_sets_history_bound_counterexample :
    (getDiag (setup_system []) SystemInformationDiagnosticsPlugin.CPU_USAGE).map
        Diagnostic.maxHistoryLength = some 20 ∧
    (getDiag (setup_system []) SystemInformationDiagnosticsPlugin.MEM_USAGE).map
        Diagnostic.maxHistoryLength = some 20 := by
  decide

/-- Claim C6 (amended): the history depth of the two registered series is chosen by
this code: `setup_system` registers both diagnostics with the fixed retained-history
bound 20 (the third argument of `Diagnostic::new`); only the eviction mechanics
enforcing that bound are owned by the external diagnostics registry. -/
theorem setup_system_fixes_history_bound_twenty (ds : Diagnostics) :
    ((setup_system ds).drop ds.length).map Diagnostic.maxHistoryLength = [20, 20] := by
  have h : setup_system ds =
      ds ++
        [{ id := SystemInformationDiagnosticsPlugin.CPU_USAGE, name := "cpu_usage",
           maxHistoryLength := 20, suffix := "%", history := [] },
         { id := SystemInformationDiagnosticsPlugin.MEM_USAGE, name := "mem_usage",
           maxHistoryLength := 20, suffix := "%", history := [] }] := by
    simp [setup_system, Diagnostics.add, Diagnostic.new, Diagnostic.with_suffix]
  rw [h, List.drop_left]
  rfl

/-- Claim C7: in a non-allow-listed configuration the fallback `internal` module's
`diagnostic_system` leaves all state entirely unchanged, and its `setup_system`
registers no diagnostics and only emits a warning: nothing is recorded in the
registry. -/
theorem fallback_systems_are_noops (ds : Diagnostics) (s : Option System) :
    fallbackInternal.diagnostic_system ds s = (ds, s) ∧
    (fallbackInternal.setup_system ds).1 = ds ∧
    (fallbackInternal.setup_system ds).2 =
      "This platform and/or configuration is not supported!" :=
  ⟨rfl, rfl, rfl⟩

/-- Claim C8: every invocation of `diagnostic_system` in a supported configuration
leaves every diagnostic whose identifier differs from `CPU_USAGE` and `MEM_USAGE`
unchanged (same history, name and suffix — the whole record is equal before and
after the call). -/
theorem diagnostic_system_preserves_other_diagnostics (env : SysEnv)
    (ds : Diagnostics) (c : Option System) (n i : ℕ) (d : Diagnostic)
    (hi : ds[i]? = some d)
    (hcpu : d.id ≠ SystemInformationDiagnosticsPlugin.CPU_USAGE)
    (hmem : d.id ≠ SystemInformationDiagnosticsPlugin.MEM_USAGE) :
    (diagnostic_system env ds c n).diagnostics[i]? = some d := by
  rw [diagnostic_system_diagnostics]
  simp only [Diagnostics.add_measurement, List.getElem?_map, hi, Option.map_some',
    if_neg hcpu]
  rw [if_neg hmem]

/-- Witness for C8: a tick over a registry holding a third, foreign diagnostic
(id 7) leaves that diagnostic untouched. -/
theorem diagnostic_system_preserves_other_diagnostics_witness :
    (diagnostic_system ⟨[30, 70], 4, 1⟩
        (Diagnostic.mk 7 "other" 3 "" [some 1] :: setup_system [])
        none 0).diagnostics[0]? =
      some (Diagnostic.mk 7 "other" 3 "" [some 1]) :=
  diagnostic_system_preserves_other_diagnostics ⟨[30, 70], 4, 1⟩
    (Diagnostic.mk 7 "other" 3 "" [some 1] :: setup_system []) none 0 0
    (Diagnostic.mk 7 "other" 3 "" [some 1]) (by decide) (by decide) (by decide)

/-- Claim C9: for every invocation of `diagnostic_system` in a supported
configuration with at least one logical core and nonzero total memory, the two
divisions it performs (the CPU sum by the core count, and used memory by total
memory) have nonzero divisors, so the computation is total and one well-defined
value is pushed into each of the two series. -/
theorem diagnostic_system_divisions_total (env : SysEnv) (ds : Diagnostics)
    (c : Option System) (n : ℕ)
    (hlen : 0 < env.cpuUsages.length) (htotal : env.totalMemory ≠ 0) :
    ((env.cpuUsages.length : ℚ) ≠ 0 ∧ (env.totalMemory : ℚ) / BYTES_TO_GIB ≠ 0) ∧
    (currentCpuUsage env.cpuUsages).isSome = true ∧
    (currentUsedMem env.usedMemory env.totalMemory).isSome = true ∧
    (diagnostic_system env ds c n).diagnostics =
      (ds.add_measurement SystemInformationDiagnosticsPlugin.CPU_USAGE
          (some (arithmeticMean env.cpuUsages))).add_measurement
        SystemInformationDiagnosticsPlugin.MEM_USAGE
        (some ((env.usedMemory : ℚ) / (env.totalMemory : ℚ) * 100)) := by
  have hl : (env.cpuUsages.length : ℚ) ≠ 0 := Nat.cast_ne_zero.mpr hlen.ne'
  have ht : (env.totalMemory : ℚ) ≠ 0 := Nat.cast_ne_zero.mpr htotal
  have hB : BYTES_TO_GIB ≠ 0 := by norm_num [BYTES_TO_GIB]
  refine ⟨⟨hl, div_ne_zero ht hB⟩, ?_, ?_, ?_⟩
  · rw [currentCpuUsage_eq hlen]; rfl
  · rw [currentUsedMem_eq htotal]; rfl
  · rw [diagnostic_system_diagnostics, currentCpuUsage_eq hlen,
      currentUsedMem_eq htotal]

/-- Witness for C9: two cores and 4 bytes of total memory give nonzero divisors and
two well-defined pushed values. -/
theorem diagnostic_system_divisions_total_witness :
    ((([30, 70] : List ℚ).length : ℚ) ≠ 0 ∧
      ((4 : ℕ) : ℚ) / BYTES_TO_GIB ≠ 0) ∧
    (currentCpuUsage [30, 70]).isSome = true ∧
    (currentUsedMem 1 4).isSome = true ∧
    (diagnostic_system ⟨[30, 70], 4, 1⟩ (setup_system []) none 0).diagnostics =
      ((setup_system []).add_measurement SystemInformationDiagnosticsPlugin.CPU_USAGE
          (some (arithmeticMean [30, 70]))).add_measurement
        SystemInformationDiagnosticsPlugin.MEM_USAGE
        (some (((1 : ℕ) : ℚ) / ((4 : ℕ) : ℚ) * 100)) :=
  diagnostic_system_divisions_total ⟨[30, 70], 4, 1⟩ (setup_system []) none 0
    (by decide) (by decide)

/-- Claim C10: the local sysinfo cache of `diagnostic_system` starts as `None`
(the default of `Local<Option<System>>`), holds `Some` system handle after any
invocation, is created exactly once on the first invocation (the allocator counter
advances exactly then), and every subsequent invocation reuses the existing handle
(same allocation tag, no new allocation) rather than creating a new one. -/
theorem sysinfo_cache_invariant (env : SysEnv) (ds : Diagnostics) (n : ℕ) :
    initialSysinfo = none ∧
    (∀ c : Option System, ((diagnostic_system env ds c n).sysinfo).isSome = true) ∧
    ((diagnostic_system env ds none n).sysinfo =
        some (((System.new_all env n).refresh_cpu env).refresh_memory env) ∧
      (diagnostic_system env ds none n).nextHandle = n + 1) ∧
    ∀ s : System,
      (diagnostic_system env ds (some s) n).sysinfo =
          some ((s.refresh_cpu env).refresh_memory env) ∧
      (diagnostic_system env ds (some s) n).nextHandle = n ∧
      ((s.refresh_cpu env).refresh_memory env).handle = s.handle := by
  refine ⟨rfl, ?_, ⟨rfl, rfl⟩, ?_⟩
  · rintro (_ | s) <;> rfl
  · exact fun s => ⟨rfl, rfl, rfl⟩
